import Mathlib

/-!
Verification development for the `CloudESSManager` session manager
(`src/APP/Grid_Dut_Mng.py`).  The manager keeps a control/telemetry session
with one energy-storage device: it routes inbound messages, keeps
charge/discharge record tables, acknowledges events with confirmation
envelopes, correlates outbound commands with responses by message index, and
answers liveness and record queries.

This file shallowly embeds the data model and the operations of that class
and proves the specification claims about them.  Wall-clock instants are
modelled as integers (seconds); Python `datetime` values enter the embedded
operations through an explicit `now` parameter.  Python dictionaries keyed by
order identifier or message index are modelled as functions into `Option`.
-/

namespace GridDut

/-- Command wire identifiers (the `CommandType` enum of the source). -/
inductive CommandType
  | POWER_CONTROL
  | OTA_UPGRADE
  | CHARGE_POWER_ADJUST
  | DISCHARGE_POWER_ADJUST
  | CHARGE_RATE_MODE
  | DISCHARGE_RATE_MODE
  | CHARGE_SOC_SET
  | DISCHARGE_SOC_SET
deriving DecidableEq, Repr

/-- Wire string of each command type (`CommandType` enum values). -/
def CommandType.value : CommandType → String
  | .POWER_CONTROL => "powerCtrlReq"
  | .OTA_UPGRADE => "otaReq"
  | .CHARGE_POWER_ADJUST => "powerAdjustSetReq"
  | .DISCHARGE_POWER_ADJUST => "powerAdjustSetDischargeReq"
  | .CHARGE_RATE_MODE => "rateModeSetReq"
  | .DISCHARGE_RATE_MODE => "dischgRateModeSetReq"
  | .CHARGE_SOC_SET => "chgSocSetReq"
  | .DISCHARGE_SOC_SET => "dischgSocSetReq"

/-- Message categories (the `MessageType` enum of the source). -/
inductive MessageType
  | KEEPALIVE
  | STATE
  | EVENT
  | CONFIRM
  | REQUEST
  | RESPONSE
deriving DecidableEq, Repr

/-- Wire string of each message category (`MessageType` enum values). -/
def MessageType.value : MessageType → String
  | .KEEPALIVE => "keepalive"
  | .STATE => "state"
  | .EVENT => "event"
  | .CONFIRM => "confirm"
  | .REQUEST => "request"
  | .RESPONSE => "response"

/-- Event function identifiers (the `EventType` enum of the source). -/
inductive EventType
  | faultRecord
  | chargeEvent
  | dischargeEvent
  | chargeRecord
  | dischargeRecord
deriving DecidableEq, Repr

/-- Wire string of each event type (`EventType` enum values). -/
def EventType.value : EventType → String
  | .faultRecord => "faultRecord"
  | .chargeEvent => "chargeEvent"
  | .dischargeEvent => "dischargeEvent"
  | .chargeRecord => "chargeRecord"
  | .dischargeRecord => "dischargeRecord"

/-- Confirmation function identifiers (the `ConfirmType` enum of the source). -/
inductive ConfirmType
  | faultRecordConf
  | chargeEventConf
  | dischargeEventConf
  | chargeRecordConf
  | dischargeRecordConf
deriving DecidableEq, Repr

/-- Wire string of each confirm type (`ConfirmType` enum values). -/
def ConfirmType.value : ConfirmType → String
  | .faultRecordConf => "faultRecordConf"
  | .chargeEventConf => "chgEventConf"
  | .dischargeEventConf => "dischgEventConf"
  | .chargeRecordConf => "chargeRecordConf"
  | .dischargeRecordConf => "dischargeRecordConf"

/-- Header of an inbound event envelope: the fields `_handle_event_message`
reads via `header.get(...)`; absent keys are `none`. -/
structure EventHeader where
  index : Option Int
  version : Option String
  function : Option String
  timeStamp : Option String
deriving DecidableEq, Repr

/-- Body of an inbound event envelope: the fields the record processors read
via `data_body.get(...)`; absent keys are `none`. -/
structure EventBody where
  orderSn : Option String
  startTime : Option String
  stopTime : Option String
  electAmount : Option Int
  totalMoney : Option Int
  startSoc : Option Int
  stopSoc : Option Int
  chgTime : Option Int
  rateModelID : Option Int
deriving DecidableEq, Repr

/-- An inbound event envelope `{header, dataBody}`. -/
structure EventEnvelope where
  header : EventHeader
  dataBody : EventBody
deriving DecidableEq, Repr

/-- One entry of the event ledger `event_logs`, as built in
`_handle_event_message`. -/
structure EventRecord where
  timestamp : Option String
  realtime : Int
  function : Option String
  header : EventHeader
  data : EventBody
deriving DecidableEq, Repr

/-- A stored charge record, as built in `_process_charge_record`. -/
structure ChargeRecord where
  order_sn : String
  start_time : Option String
  stop_time : Option String
  electAmount : Int
  total_money : Int
  start_soc : Int
  stop_soc : Int
  chgTime : Int
  rateModelID : Int
  created_at : Int
deriving DecidableEq, Repr

/-- A stored discharge record, as built in `_process_discharge_record`.  It
differs from a charge record in that `electAmount` has no default (stays
optional) and the duration field is named `duration`. -/
structure DischargeRecord where
  order_sn : String
  start_time : Option String
  stop_time : Option String
  electAmount : Option Int
  total_money : Int
  start_soc : Int
  stop_soc : Int
  duration : Int
  rateModelID : Int
  created_at : Int
deriving DecidableEq, Repr

/-- The confirmation envelope built and published by `_send_confirm`
(header and `dataBody` fields flattened into one structure). -/
structure ConfirmMsg where
  index : Int
  version : String
  timestamp : Int
  messageType : String
  function : String
  orderSn : Option String
  result : Int
  reason : Int
deriving DecidableEq, Repr

/-- Header of an inbound response envelope: `_handle_response_message` reads
only `index`; `version` stands for the rest of the header the device sent. -/
structure RespHeader where
  index : Option Int
  version : String
deriving DecidableEq, Repr

/-- An inbound response envelope; its body is an opaque key-value object. -/
structure RespEnvelope where
  header : RespHeader
  dataBody : List (String × String)
deriving DecidableEq, Repr

/-- Command parameters: an opaque key-value object passed through unchanged
by `send_command`. -/
abbrev CmdParams := List (String × Int)

/-- One entry of `pending_commands`, as built in `send_command`.  The
`response` slot receives the whole response payload in
`_handle_response_message`. -/
structure PendingCommand where
  type : CommandType
  params : CmdParams
  timestamp : Int
  status : String
  response : Option RespEnvelope
deriving DecidableEq, Repr

/-- The outbound command envelope built in `send_command`. -/
structure CommandEnvelope where
  index : Int
  version : String
  function : String
  timestamp : Int
  dataBody : CmdParams
deriving DecidableEq, Repr

/-- One rate segment of a rate-model request; the source only ever measures
the length of the rate lists and serialises them, so segments are opaque. -/
abbrev RateItem := List (String × Int)

/-- The outbound rate-model request envelope built in `send_rate_model_set`
(header and `dataBody` fields flattened into one structure). -/
structure RateEnvelope where
  version : String
  timeStamp : Int
  index : Int
  function : String
  reason : Int
  rateModelID : String
  effect : Int
  effectDate : String
  rateList : List RateItem
  rateDetailsList : List RateItem
deriving DecidableEq, Repr

/-- One entry of `command_history` as appended by `send_rate_model_set`. -/
structure HistEntry where
  id : Int
  type : String
  payload : RateEnvelope
  timestamp : Int
  status : String
deriving DecidableEq, Repr

/-- An opaque decoded state-message body (one of the six snapshot slots). -/
abbrev StateBody := List (String × Int)

/-- The mutable session state of one `CloudESSManager` instance: the
instance attributes set in `__init__` (plus `total_money` and `last_orderSn`,
which the class declares at class scope but accumulates per instance). -/
structure ManagerState where
  product_code : String
  device_code : String
  use_auto_topic : Bool
  manual_sub : MessageType → Option String
  manual_pub : MessageType → Option String
  connected : Bool
  last_heartbeat : Option Int
  connection_timeout : Int
  pcs_info : StateBody
  pcs_state : StateBody
  bat_info : StateBody
  bat_state : StateBody
  em_state : StateBody
  ess_state : StateBody
  event_logs : List EventRecord
  command_history : List HistEntry
  charge_records : String → Option ChargeRecord
  discharge_records : String → Option DischargeRecord
  charge_order_sns : List String
  discharge_order_sns : List String
  message_index : Int
  pending_commands : Int → Option PendingCommand
  total_money : Int
  last_orderSn : String

/-- The state `__init__` establishes (the constructor forces
`use_auto_topic` to `True` regardless of its argument). -/
def initState (product_code device_code : String) : ManagerState where
  product_code := product_code
  device_code := device_code
  use_auto_topic := true
  manual_sub := fun mt =>
    match mt with
    | .KEEPALIVE => some "100100003/9999998/S2M/keepalive"
    | .STATE => some "100100003/9999998/S2M/state"
    | .EVENT => some "100100003/9999998/S2M/event"
    | .RESPONSE => some "100100003/9999998/S2M/response"
    | _ => none
  manual_pub := fun mt =>
    match mt with
    | .CONFIRM => some "100100003/9999998/M2S/confirm"
    | .REQUEST => some "100100003/9999998/M2S/request"
    | _ => none
  connected := false
  last_heartbeat := none
  connection_timeout := 120
  pcs_info := []
  pcs_state := []
  bat_info := []
  bat_state := []
  em_state := []
  ess_state := []
  event_logs := []
  command_history := []
  charge_records := fun _ => none
  discharge_records := fun _ => none
  charge_order_sns := []
  discharge_order_sns := []
  message_index := 1
  pending_commands := fun _ => none
  total_money := 0
  last_orderSn := ""

/-- Topic resolution (`_get_topic`): derived topic in auto mode, override table with a
`default/{category}` fallback in manual mode. -/
def get_topic (s : ManagerState) (mt : MessageType) (direction : String) : String :=
  if s.use_auto_topic then
    let direction_str := if direction = "subscribe" then "S2M" else "M2S"
    s.product_code ++ "/" ++ s.device_code ++ "/" ++ direction_str ++ "/" ++ mt.value
  else
    let table := if direction = "subscribe" then s.manual_sub else s.manual_pub
    (table mt).getD ("default/" ++ mt.value)

/-- Liveness query (`check_connection_status`): false while disconnected; true while connected
with no heartbeat ever seen; otherwise compares the elapsed seconds against
the configured timeout. -/
def check_connection_status (now : Int) (s : ManagerState) : Bool :=
  if !s.connected then
    false
  else
    match s.last_heartbeat with
    | none => true
    | some t => decide (now - t ≤ s.connection_timeout)

/-- The Python truthiness test `if not order_sn: return` used by both record
processors: an order identifier is absent when the key is missing or the
string is empty. -/
def truthyOrderSn : Option String → Bool
  | none => false
  | some sn => !(sn = "")

/-- The charge record built by `_process_charge_record` from an event body
(`data_body.get` defaults applied). -/
def mkChargeRecord (body : EventBody) (sn : String) (now : Int) : ChargeRecord where
  order_sn := sn
  start_time := body.startTime
  stop_time := body.stopTime
  electAmount := body.electAmount.getD 0
  total_money := body.totalMoney.getD 0
  start_soc := body.startSoc.getD 0
  stop_soc := body.stopSoc.getD 0
  chgTime := body.chgTime.getD 0
  rateModelID := body.rateModelID.getD 0
  created_at := now

/-- The discharge record built by `_process_discharge_record` from an event
body (`electAmount` is fetched with no default there). -/
def mkDischargeRecord (body : EventBody) (sn : String) (now : Int) : DischargeRecord where
  order_sn := sn
  start_time := body.startTime
  stop_time := body.stopTime
  electAmount := body.electAmount
  total_money := body.totalMoney.getD 0
  start_soc := body.startSoc.getD 0
  stop_soc := body.stopSoc.getD 0
  duration := body.chgTime.getD 0
  rateModelID := body.rateModelID.getD 0
  created_at := now

/-- Charge-record ingestion (`_process_charge_record`): skip when the order identifier is absent,
otherwise upsert the record, index the identifier once, and add its cost to
the running total. -/
def process_charge_record (p : EventEnvelope) (now : Int) (s : ManagerState) :
    ManagerState :=
  match p.dataBody.orderSn with
  | none => s
  | some sn =>
    if sn = "" then s
    else
      let record := mkChargeRecord p.dataBody sn now
      { s with
        charge_records := fun k => if k = sn then some record else s.charge_records k
        charge_order_sns :=
          if sn ∈ s.charge_order_sns then s.charge_order_sns
          else s.charge_order_sns ++ [sn]
        total_money := s.total_money + record.total_money }

/-- Discharge-record ingestion (`_process_discharge_record`): mirror image of the charge processor on the
discharge tables. -/
def process_discharge_record (p : EventEnvelope) (now : Int) (s : ManagerState) :
    ManagerState :=
  match p.dataBody.orderSn with
  | none => s
  | some sn =>
    if sn = "" then s
    else
      let record := mkDischargeRecord p.dataBody sn now
      { s with
        discharge_records := fun k => if k = sn then some record else s.discharge_records k
        discharge_order_sns :=
          if sn ∈ s.discharge_order_sns then s.discharge_order_sns
          else s.discharge_order_sns ++ [sn]
        total_money := s.total_money + record.total_money }

/-- The if-chain of `_send_confirm` mapping an event function identifier to
the confirmation function identifier (empty when nothing matches). -/
def confirmFunctionOf (function : Option String) : String :=
  if function = some EventType.chargeEvent.value then ConfirmType.chargeEventConf.value
  else if function = some EventType.dischargeEvent.value then ConfirmType.dischargeEventConf.value
  else if function = some EventType.faultRecord.value then ConfirmType.faultRecordConf.value
  else if function = some EventType.chargeRecord.value then ConfirmType.chargeRecordConf.value
  else if function = some EventType.dischargeRecord.value then ConfirmType.dischargeRecordConf.value
  else ""

/-- Confirmation publishing (`_send_confirm`): no publish when the header index is absent; otherwise
publish exactly one confirmation envelope on the publish confirm topic.  The
result is the list of (topic, payload) pairs handed to `client.publish`. -/
def send_confirm (index : Option Int) (order_sn : Option String)
    (function : Option String) (now : Int) (s : ManagerState) :
    List (String × ConfirmMsg) :=
  match index with
  | none => []
  | some i =>
    let confirm : ConfirmMsg :=
      { index := i
        version := "1.0"
        timestamp := now
        messageType := "confirm"
        function := confirmFunctionOf function
        orderSn := order_sn
        result := 1
        reason := 1 }
    [(get_topic s MessageType.CONFIRM "publish", confirm)]

/-- Event handling (`_handle_event_message`): append to the bounded event ledger, process
charge/discharge record events, publish the confirmation, refresh the
last-seen time.  Returns the new state and the published messages. -/
def handle_event_message (p : EventEnvelope) (now : Int) (s : ManagerState) :
    ManagerState × List (String × ConfirmMsg) :=
  let header := p.header
  let data_body := p.dataBody
  let function := header.function
  let event : EventRecord :=
    { timestamp := header.timeStamp
      realtime := now
      function := function
      header := header
      data := data_body }
  let logs := s.event_logs ++ [event]
  let logs := if logs.length > 1000 then logs.drop 1 else logs
  let s1 := { s with event_logs := logs }
  let s2 :=
    if function = some "chargeRecord" then process_charge_record p now s1
    else if function = some "dischargeRecord" then process_discharge_record p now s1
    else s1
  let published := send_confirm header.index data_body.orderSn function now s2
  ({ s2 with last_heartbeat := some now }, published)

/-- Response handling (`_handle_response_message`): complete the pending command whose index
matches the response header, storing the whole response payload on it; leave
the table untouched when nothing matches. -/
def handle_response_message (p : RespEnvelope) (s : ManagerState) : ManagerState :=
  match p.header.index with
  | none => s
  | some msg_index =>
    match s.pending_commands msg_index with
    | none => s
    | some cmd =>
      { s with
        pending_commands := fun k =>
          if k = msg_index then
            some { cmd with status := "completed", response := some p }
          else s.pending_commands k }

/-- Command issuing (`send_command`): sentinel −1 and no effect while disconnected; otherwise
increment the message index, record a pending command at the new index, and
publish the command envelope on the request topic.  Returns the value
returned to the caller, the new state, and the published messages. -/
def send_command (command_type : CommandType) (params : CmdParams) (now : Int)
    (s : ManagerState) : Int × ManagerState × List (String × CommandEnvelope) :=
  if !s.connected then
    (-1, s, [])
  else
    let msg_index := s.message_index + 1
    let command_payload : CommandEnvelope :=
      { index := msg_index
        version := "1.0"
        function := command_type.value
        timestamp := now
        dataBody := params }
    let cmd : PendingCommand :=
      { type := command_type
        params := params
        timestamp := now
        status := "pending"
        response := none }
    let s1 :=
      { s with
        message_index := msg_index
        pending_commands := fun k =>
          if k = msg_index then some cmd else s.pending_commands k }
    (msg_index, s1, [(get_topic s1 MessageType.REQUEST "publish", command_payload)])

/-- Rate-model request (`send_rate_model_set`): sentinel −1 while disconnected or when the rate
lists have mismatched or out-of-range lengths (nothing published); otherwise
build the request with the pre-increment message index in its header,
increment the index, append a history entry, and publish.  The returned
command identifier is the post-increment index. -/
def send_rate_model_set (rate_model_id : String) (effect : Int)
    (effect_date : String) (rate_list rate_details_list : List RateItem)
    (function_id : String) (now : Int) (s : ManagerState) :
    Int × ManagerState × List (String × RateEnvelope) :=
  if !s.connected then
    (-1, s, [])
  else if rate_list.length ≠ rate_details_list.length
      ∨ ¬(1 ≤ rate_list.length ∧ rate_list.length ≤ 12) then
    (-1, s, [])
  else
    let payload : RateEnvelope :=
      { version := "V1.0.0"
        timeStamp := now
        index := s.message_index
        function := function_id
        reason := 0
        rateModelID := rate_model_id
        effect := effect
        effectDate := effect_date
        rateList := rate_list
        rateDetailsList := rate_details_list }
    let cmd_id := s.message_index + 1
    let hist : HistEntry :=
      { id := cmd_id
        type := "rateModelSet"
        payload := payload
        timestamp := now
        status := "sent" }
    let s1 :=
      { s with
        message_index := cmd_id
        command_history := s.command_history ++ [hist] }
    (cmd_id, s1, [(get_topic s1 MessageType.REQUEST "publish", payload)])

/-- The Python slice `lst[-count:]` used by the record queries, over an
arbitrary integer `count`: a non-negative slice start drops that many
elements from the front (clamped), a negative start keeps the last
`-start` elements. -/
def pySliceLast (count : Int) (l : List α) : List α :=
  let start : Int := -count
  if 0 ≤ start then l.drop start.toNat
  else l.drop (max 0 ((l.length : Int) + start)).toNat

/-- Charge-record query (`get_charge_records`): with a truthy order identifier, the single exact
match (or nothing); otherwise `charge_order_sns[-count:][::-1]` resolved
through the record table. -/
def get_charge_records (count : Int) (order_sn : Option String)
    (s : ManagerState) : List ChargeRecord :=
  if truthyOrderSn order_sn then
    match order_sn with
    | some sn =>
      match s.charge_records sn with
      | some r => [r]
      | none => []
    | none => []
  else
    let recent_sns := (pySliceLast count s.charge_order_sns).reverse
    recent_sns.filterMap fun sn => s.charge_records sn

/-- Discharge-record query (`get_discharge_records`): mirror image of the charge query on the
discharge tables. -/
def get_discharge_records (count : Int) (order_sn : Option String)
    (s : ManagerState) : List DischargeRecord :=
  if truthyOrderSn order_sn then
    match order_sn with
    | some sn =>
      match s.discharge_records sn with
      | some r => [r]
      | none => []
    | none => []
  else
    let recent_sns := (pySliceLast count s.discharge_order_sns).reverse
    recent_sns.filterMap fun sn => s.discharge_records sn

/-- Fold a list of timed event envelopes through the event-message handler,
keeping the state. -/
def runEvents (es : List (EventEnvelope × Int)) (s : ManagerState) : ManagerState :=
  es.foldl (fun st e => (handle_event_message e.1 e.2 st).1) s

/-- The fixed event-to-confirm table of the specification, as an association
list, for comparison with the if-chain of `_send_confirm`. -/
def confTable : List (String × String) :=
  [(EventType.chargeEvent.value, ConfirmType.chargeEventConf.value),
   (EventType.dischargeEvent.value, ConfirmType.dischargeEventConf.value),
   (EventType.faultRecord.value, ConfirmType.faultRecordConf.value),
   (EventType.chargeRecord.value, ConfirmType.chargeRecordConf.value),
   (EventType.dischargeRecord.value, ConfirmType.dischargeRecordConf.value)]

/-- A sample event envelope whose function identifier is unmapped. -/
def exMysteryEvent : EventEnvelope :=
  { header := { index := some 7, version := some "1.0",
                function := some "mystery", timeStamp := some "t" }
    dataBody := { orderSn := some "ORD", startTime := none, stopTime := none,
                  electAmount := none, totalMoney := none, startSoc := none,
                  stopSoc := none, chgTime := none, rateModelID := none } }

/-- A sample event envelope with no header index. -/
def exNoIndexEvent : EventEnvelope :=
  { header := { index := none, version := none, function := some "chargeEvent",
                timeStamp := none }
    dataBody := exMysteryEvent.dataBody }

/-- A connected session that has never seen a heartbeat. -/
def exConnState : ManagerState := { initState "P" "D" with connected := true }

/-- A connected session whose last-seen instant is 0. -/
def exHbState : ManagerState :=
  { initState "P" "D" with connected := true, last_heartbeat := some 0 }

/-- A pending command sitting at message index 2. -/
def exPendingCmd : PendingCommand :=
  { type := CommandType.POWER_CONTROL, params := [], timestamp := 0,
    status := "pending", response := none }

/-- A session with exactly one pending command, at index 2. -/
def exPendState : ManagerState :=
  { initState "P" "D" with
    pending_commands := fun k => if k = 2 then some exPendingCmd else none }

/-- A matching response; its header version is "1.0". -/
def exResp1 : RespEnvelope :=
  { header := { index := some 2, version := "1.0" }, dataBody := [("message", "ok")] }

/-- A response with the same body as `exResp1` but a different header. -/
def exResp2 : RespEnvelope :=
  { header := { index := some 2, version := "2.0" }, dataBody := [("message", "ok")] }

/-- A response with no header index. -/
def exRespNoIdx : RespEnvelope :=
  { header := { index := none, version := "1.0" }, dataBody := [] }

/-- A response whose index 9 matches no pending command. -/
def exResp9 : RespEnvelope :=
  { header := { index := some 9, version := "1.0" }, dataBody := [] }

/-- A charge-record event for order "A" costing 10. -/
def exChargeEvent : EventEnvelope :=
  { header := { index := some 3, version := some "1.0",
                function := some "chargeRecord", timeStamp := some "t" }
    dataBody := { orderSn := some "A", startTime := some "s", stopTime := some "e",
                  electAmount := some 5, totalMoney := some 10, startSoc := some 20,
                  stopSoc := some 80, chgTime := some 60, rateModelID := some 1 } }

/-- A second event for the same order "A", with different field values. -/
def exChargeEvent2 : EventEnvelope :=
  { header := { index := some 4, version := some "1.0",
                function := some "chargeRecord", timeStamp := some "t2" }
    dataBody := { orderSn := some "A", startTime := some "s2", stopTime := some "e2",
                  electAmount := some 7, totalMoney := some 13, startSoc := some 10,
                  stopSoc := some 90, chgTime := some 70, rateModelID := some 2 } }

/-- A session that has already processed order "A" once. -/
def exDupState : ManagerState :=
  process_charge_record exChargeEvent 1 (initState "P" "D")

/-- Two repeated events for order "A". -/
def exEvents : List (EventEnvelope × Int) := [(exChargeEvent, 1), (exChargeEvent2, 2)]

/-- The ledger entry `_handle_event_message` builds from an event payload. -/
def mkEventRecord (p : EventEnvelope) (now : Int) : EventRecord :=
  { timestamp := p.header.timeStamp
    realtime := now
    function := p.header.function
    header := p.header
    data := p.dataBody }

/-- The ledger update of `_handle_event_message`: append, then pop the oldest
entry when the length exceeds 1000. -/
def pushBounded (l : List EventRecord) (x : EventRecord) : List EventRecord :=
  let l2 := l ++ [x]
  if l2.length > 1000 then l2.drop 1 else l2

/-- A one-segment rate list. -/
def exRateList : List RateItem := [[("price", 5)]]

/-- A one-segment rate-details list. -/
def exRateDetails : List RateItem := [[("from", 0)]]

/-- The charge record stored after processing `exChargeEvent` at instant 1. -/
def exStoredCharge : ChargeRecord := mkChargeRecord exChargeEvent.dataBody "A" 1

/-- A session holding exactly one charge record, for order "A". -/
def exQueryState : ManagerState :=
  { initState "P" "D" with
    charge_records := fun k => if k = "A" then some exStoredCharge else none
    charge_order_sns := ["A"] }

theorem confirmFunctionOf_none : confirmFunctionOf none = "" := rfl

/-- The if-chain of `_send_confirm` computes exactly a lookup in the fixed
event-to-confirm table, defaulting to the empty string. -/
theorem confirmFunctionOf_eq_lookup (f : String) :
    confirmFunctionOf (some f) = (confTable.lookup f).getD "" := by
  by_cases h1 : f = "chargeEvent" <;>
  by_cases h2 : f = "dischargeEvent" <;>
  by_cases h3 : f = "faultRecord" <;>
  by_cases h4 : f = "chargeRecord" <;>
  by_cases h5 : f = "dischargeRecord" <;>
  simp [confirmFunctionOf, confTable, List.lookup_cons, beq_false_of_ne,
    EventType.value, ConfirmType.value, h1, h2, h3, h4, h5]

theorem process_charge_record_get_topic (p : EventEnvelope) (now : Int)
    (s : ManagerState) (mt : MessageType) (d : String) :
    get_topic (process_charge_record p now s) mt d = get_topic s mt d := by
  unfold process_charge_record
  cases p.dataBody.orderSn with
  | none => rfl
  | some sn =>
    dsimp only
    by_cases h : sn = ""
    · rw [if_pos h]
    · rw [if_neg h]
      rfl

theorem process_discharge_record_get_topic (p : EventEnvelope) (now : Int)
    (s : ManagerState) (mt : MessageType) (d : String) :
    get_topic (process_discharge_record p now s) mt d = get_topic s mt d := by
  unfold process_discharge_record
  cases p.dataBody.orderSn with
  | none => rfl
  | some sn =>
    dsimp only
    by_cases h : sn = ""
    · rw [if_pos h]
    · rw [if_neg h]
      rfl

theorem send_confirm_congr (index : Option Int) (order_sn : Option String)
    (function : Option String) (now : Int) (s s' : ManagerState)
    (h : get_topic s' MessageType.CONFIRM "publish" =
         get_topic s MessageType.CONFIRM "publish") :
    send_confirm index order_sn function now s' =
      send_confirm index order_sn function now s := by
  unfold send_confirm
  cases index <;> simp [h]

/-- The messages published while handling an event do not depend on the
intermediate ledger/record updates: they are `_send_confirm`'s output over
the incoming state. -/
theorem handle_event_message_snd (p : EventEnvelope) (now : Int) (s : ManagerState) :
    (handle_event_message p now s).2 =
      send_confirm p.header.index p.dataBody.orderSn p.header.function now s := by
  unfold handle_event_message
  dsimp only
  apply send_confirm_congr
  split_ifs <;>
    first
      | rfl
      | exact (process_charge_record_get_topic _ _ _ _ _).trans rfl
      | exact (process_discharge_record_get_topic _ _ _ _ _).trans rfl

/-- C1: processing an event whose header carries an index publishes exactly
one confirmation envelope on the confirm topic, carrying the same index and
the event body's `orderSn`; its function field is the table image of the
event's function identifier, hence empty when the identifier is unmapped or
absent; without a header index nothing is published. -/
theorem C1_event_confirmation (p : EventEnvelope) (now : Int) (s : ManagerState) :
    (∀ i, p.header.index = some i →
      ∃ c : ConfirmMsg,
        (handle_event_message p now s).2 =
          [(get_topic s MessageType.CONFIRM "publish", c)] ∧
        c.index = i ∧
        c.orderSn = p.dataBody.orderSn ∧
        c.function = confirmFunctionOf p.header.function ∧
        (∀ f, p.header.function = some f → confTable.lookup f = none →
          c.function = "") ∧
        (p.header.function = none → c.function = "")) ∧
    (p.header.index = none → (handle_event_message p now s).2 = []) := by
  constructor
  · intro i hi
    refine ⟨{ index := i, version := "1.0", timestamp := now,
              messageType := "confirm",
              function := confirmFunctionOf p.header.function,
              orderSn := p.dataBody.orderSn, result := 1, reason := 1 },
            ?_, rfl, rfl, rfl, ?_, ?_⟩
    · rw [handle_event_message_snd]
      unfold send_confirm
      rw [hi]
    · intro f hf hl
      simp only [hf]
      rw [confirmFunctionOf_eq_lookup, hl]
      rfl
    · intro hf
      simp [hf, confirmFunctionOf]
  · intro h
    rw [handle_event_message_snd]
    unfold send_confirm
    rw [h]

theorem C1_event_confirmation_witness :
    (∃ c : ConfirmMsg,
      (handle_event_message exMysteryEvent 42 (initState "P" "D")).2 =
        [(get_topic (initState "P" "D") MessageType.CONFIRM "publish", c)] ∧
      c.index = 7 ∧
      c.orderSn = exMysteryEvent.dataBody.orderSn ∧
      c.function = confirmFunctionOf exMysteryEvent.header.function ∧
      (∀ f, exMysteryEvent.header.function = some f → confTable.lookup f = none →
        c.function = "") ∧
      (exMysteryEvent.header.function = none → c.function = "")) ∧
    (handle_event_message exNoIndexEvent 1 (initState "P" "D")).2 = [] :=
  ⟨(C1_event_confirmation exMysteryEvent 42 (initState "P" "D")).1 7 rfl,
   (C1_event_confirmation exNoIndexEvent 1 (initState "P" "D")).2 rfl⟩

/-- C5: the liveness query is false while disconnected; true while connected
with no message ever seen; otherwise false exactly when the elapsed time
exceeds the configured timeout (true at or below it). -/
theorem C5_liveness (now : Int) (s : ManagerState) :
    (s.connected = false → check_connection_status now s = false) ∧
    (s.connected = true → s.last_heartbeat = none →
      check_connection_status now s = true) ∧
    (∀ t, s.connected = true → s.last_heartbeat = some t →
      ((check_connection_status now s = false ↔ s.connection_timeout < now - t) ∧
       (check_connection_status now s = true ↔ now - t ≤ s.connection_timeout))) := by
  unfold check_connection_status
  refine ⟨?_, ?_, ?_⟩
  · intro h
    simp [h]
  · intro h1 h2
    simp [h1, h2]
  · intro t h1 h2
    simp only [h1, h2, Bool.not_true, Bool.false_eq_true, if_false]
    constructor
    · rw [decide_eq_false_iff_not]
      omega
    · rw [decide_eq_true_eq]

theorem C5_liveness_witness :
    check_connection_status 5 (initState "P" "D") = false ∧
    check_connection_status 5 exConnState = true ∧
    (check_connection_status 121 exHbState = false ↔
      exHbState.connection_timeout < 121 - 0) ∧
    (check_connection_status 120 exHbState = true ↔
      120 - 0 ≤ exHbState.connection_timeout) :=
  ⟨(C5_liveness 5 (initState "P" "D")).1 rfl,
   (C5_liveness 5 exConnState).2.1 rfl rfl,
   ((C5_liveness 121 exHbState).2.2 0 rfl rfl).1,
   ((C5_liveness 120 exHbState).2.2 0 rfl rfl).2⟩

/-- C6: issuing any command while the connectivity flag is false returns the
sentinel −1, publishes nothing, and leaves the whole session state (in
particular the pending-commands table) unchanged. -/
theorem C6_disconnected_command (command_type : CommandType) (params : CmdParams)
    (now : Int) (s : ManagerState) (h : s.connected = false) :
    send_command command_type params now s = (-1, s, []) := by
  unfold send_command
  simp [h]

theorem C6_disconnected_command_witness :
    (initState "P" "D").connected = false ∧
    send_command CommandType.POWER_CONTROL [("type", 1)] 9 (initState "P" "D") =
      (-1, initState "P" "D", []) :=
  ⟨rfl, C6_disconnected_command CommandType.POWER_CONTROL [("type", 1)] 9
    (initState "P" "D") rfl⟩

/-- C8 (amended): a response whose header index matches a pending command
marks it completed and stores the full response envelope on it, leaving all
other entries unchanged; a response with an absent or unmatched index leaves
the state untouched. -/
theorem C8_response_completion (r : RespEnvelope) (s : ManagerState) :
    (∀ i cmd, r.header.index = some i → s.pending_commands i = some cmd →
      (handle_response_message r s).pending_commands i =
        some { cmd with status := "completed", response := some r } ∧
      (∀ k, k ≠ i →
        (handle_response_message r s).pending_commands k = s.pending_commands k)) ∧
    (r.header.index = none → handle_response_message r s = s) ∧
    (∀ i, r.header.index = some i → s.pending_commands i = none →
      handle_response_message r s = s) := by
  refine ⟨?_, ?_, ?_⟩
  · intro i cmd hi hcmd
    constructor
    · simp [handle_response_message, hi, hcmd]
    · intro k hk
      simp [handle_response_message, hi, hcmd, hk]
  · intro h
    simp [handle_response_message, h]
  · intro i hi hnone
    simp [handle_response_message, hi, hnone]

/-- C8 counterexample: the claim says the response *body* is stored on the
completed command, but the source stores the whole payload: two responses
with identical bodies and different headers leave different stored values on
the matched pending command, so the stored value is not the body. -/
theorem C8_counterexample_stores_envelope :
    exResp1.dataBody = exResp2.dataBody ∧
    (handle_response_message exResp1 exPendState).pending_commands 2 ≠
      (handle_response_message exResp2 exPendState).pending_commands 2 := by
  constructor
  · rfl
  · decide

theorem C8_response_completion_witness :
    ((handle_response_message exResp1 exPendState).pending_commands 2 =
      some { exPendingCmd with status := "completed", response := some exResp1 } ∧
     (∀ k, k ≠ 2 →
       (handle_response_message exResp1 exPendState).pending_commands k =
         exPendState.pending_commands k)) ∧
    handle_response_message exRespNoIdx exPendState = exPendState ∧
    handle_response_message exResp9 exPendState = exPendState :=
  ⟨(C8_response_completion exResp1 exPendState).1 2 exPendingCmd rfl rfl,
   (C8_response_completion exRespNoIdx exPendState).2.1 rfl,
   (C8_response_completion exResp9 exPendState).2.2 9 rfl rfl⟩

/-- C3: processing a charge-record (resp. discharge-record) event with a
present order identifier always adds the record's cost to the running
total-cost accumulator, for any starting state — in particular also when the
identifier already has a stored record, so the accumulation is not
idempotent. -/
theorem C3_total_money_accumulates (p : EventEnvelope) (now : Int)
    (s : ManagerState) (S : String) (h : p.dataBody.orderSn = some S)
    (hS : S ≠ "") :
    (process_charge_record p now s).total_money =
      s.total_money + p.dataBody.totalMoney.getD 0 ∧
    (process_discharge_record p now s).total_money =
      s.total_money + p.dataBody.totalMoney.getD 0 := by
  constructor <;>
    simp [process_charge_record, process_discharge_record, h, hS,
      mkChargeRecord, mkDischargeRecord]

theorem C3_total_money_accumulates_witness :
    exChargeEvent.dataBody.orderSn = some "A" ∧
    ((process_charge_record exChargeEvent 2 exDupState).total_money =
      exDupState.total_money + exChargeEvent.dataBody.totalMoney.getD 0 ∧
     (process_discharge_record exChargeEvent 2 exDupState).total_money =
      exDupState.total_money + exChargeEvent.dataBody.totalMoney.getD 0) :=
  ⟨rfl, C3_total_money_accumulates exChargeEvent 2 exDupState "A" rfl (by decide)⟩

theorem process_charge_record_count (p : EventEnvelope) (now : Int)
    (s : ManagerState) (S : String) (h : p.dataBody.orderSn = some S)
    (hS : S ≠ "") (hc : s.charge_order_sns.count S ≤ 1) :
    (process_charge_record p now s).charge_order_sns.count S = 1 := by
  simp only [process_charge_record, h, hS, if_false, ite_false]
  split_ifs with hmem
  · have hpos : 0 < s.charge_order_sns.count S := List.count_pos_iff.mpr hmem
    omega
  · have hz : s.charge_order_sns.count S = 0 := List.count_eq_zero.mpr hmem
    simp [List.count_append, hz]

theorem process_discharge_record_count (p : EventEnvelope) (now : Int)
    (s : ManagerState) (S : String) (h : p.dataBody.orderSn = some S)
    (hS : S ≠ "") (hc : s.discharge_order_sns.count S ≤ 1) :
    (process_discharge_record p now s).discharge_order_sns.count S = 1 := by
  simp only [process_discharge_record, h, hS, if_false, ite_false]
  split_ifs with hmem
  · have hpos : 0 < s.discharge_order_sns.count S := List.count_pos_iff.mpr hmem
    omega
  · have hz : s.discharge_order_sns.count S = 0 := List.count_eq_zero.mpr hmem
    simp [List.count_append, hz]

theorem process_charge_record_lookup (p : EventEnvelope) (now : Int)
    (s : ManagerState) (S : String) (h : p.dataBody.orderSn = some S)
    (hS : S ≠ "") :
    (process_charge_record p now s).charge_records S =
      some (mkChargeRecord p.dataBody S now) := by
  simp [process_charge_record, h, hS]

theorem process_discharge_record_lookup (p : EventEnvelope) (now : Int)
    (s : ManagerState) (S : String) (h : p.dataBody.orderSn = some S)
    (hS : S ≠ "") :
    (process_discharge_record p now s).discharge_records S =
      some (mkDischargeRecord p.dataBody S now) := by
  simp [process_discharge_record, h, hS]

theorem foldl_process_charge (S : String) (hS : S ≠ "") :
    ∀ (es : List (EventEnvelope × Int)) (s : ManagerState),
      (∀ e ∈ es, e.1.dataBody.orderSn = some S) →
      s.charge_order_sns.count S ≤ 1 →
      (es ≠ [] →
        (es.foldl (fun st e => process_charge_record e.1 e.2 st)
          s).charge_order_sns.count S = 1) ∧
      (∀ pe, es.getLast? = some pe →
        (es.foldl (fun st e => process_charge_record e.1 e.2 st)
          s).charge_records S = some (mkChargeRecord pe.1.dataBody S pe.2)) := by
  intro es
  induction es with
  | nil =>
    intro s _ _
    exact ⟨fun hne => absurd rfl hne, fun pe hpe => by simp at hpe⟩
  | cons e rest ih =>
    intro s hall hc
    have he : e.1.dataBody.orderSn = some S := hall e (List.mem_cons_self _ _)
    have hcount1 : (process_charge_record e.1 e.2 s).charge_order_sns.count S = 1 :=
      process_charge_record_count e.1 e.2 s S he hS hc
    have hrecord : (process_charge_record e.1 e.2 s).charge_records S =
        some (mkChargeRecord e.1.dataBody S e.2) :=
      process_charge_record_lookup e.1 e.2 s S he hS
    cases rest with
    | nil =>
      refine ⟨fun _ => ?_, fun pe hpe => ?_⟩
      · simpa using hcount1
      · simp only [List.getLast?_singleton, Option.some.injEq] at hpe
        subst hpe
        simpa using hrecord
    | cons e2 rest2 =>
      have hall2 : ∀ x ∈ e2 :: rest2, x.1.dataBody.orderSn = some S :=
        fun x hx => hall x (List.mem_cons_of_mem _ hx)
      have hrec := ih (process_charge_record e.1 e.2 s) hall2 (by omega)
      refine ⟨fun _ => ?_, fun pe hpe => ?_⟩
      · simpa using hrec.1 (by simp)
      · rw [List.getLast?_cons_cons] at hpe
        simpa using hrec.2 pe hpe

theorem foldl_process_discharge (S : String) (hS : S ≠ "") :
    ∀ (es : List (EventEnvelope × Int)) (s : ManagerState),
      (∀ e ∈ es, e.1.dataBody.orderSn = some S) →
      s.discharge_order_sns.count S ≤ 1 →
      (es ≠ [] →
        (es.foldl (fun st e => process_discharge_record e.1 e.2 st)
          s).discharge_order_sns.count S = 1) ∧
      (∀ pe, es.getLast? = some pe →
        (es.foldl (fun st e => process_discharge_record e.1 e.2 st)
          s).discharge_records S = some (mkDischargeRecord pe.1.dataBody S pe.2)) := by
  intro es
  induction es with
  | nil =>
    intro s _ _
    exact ⟨fun hne => absurd rfl hne, fun pe hpe => by simp at hpe⟩
  | cons e rest ih =>
    intro s hall hc
    have he : e.1.dataBody.orderSn = some S := hall e (List.mem_cons_self _ _)
    have hcount1 : (process_discharge_record e.1 e.2 s).discharge_order_sns.count S = 1 :=
      process_discharge_record_count e.1 e.2 s S he hS hc
    have hrecord : (process_discharge_record e.1 e.2 s).discharge_records S =
        some (mkDischargeRecord e.1.dataBody S e.2) :=
      process_discharge_record_lookup e.1 e.2 s S he hS
    cases rest with
    | nil =>
      refine ⟨fun _ => ?_, fun pe hpe => ?_⟩
      · simpa using hcount1
      · simp only [List.getLast?_singleton, Option.some.injEq] at hpe
        subst hpe
        simpa using hrecord
    | cons e2 rest2 =>
      have hall2 : ∀ x ∈ e2 :: rest2, x.1.dataBody.orderSn = some S :=
        fun x hx => hall x (List.mem_cons_of_mem _ hx)
      have hrec := ih (process_discharge_record e.1 e.2 s) hall2 (by omega)
      refine ⟨fun _ => ?_, fun pe hpe => ?_⟩
      · simpa using hrec.1 (by simp)
      · rw [List.getLast?_cons_cons] at hpe
        simpa using hrec.2 pe hpe

/-- C2: after any nonempty run of charge-record (resp. discharge-record)
events sharing one present order identifier, starting from a state indexing
that identifier at most once, the insertion-order index list contains it
exactly once, and the stored record holds the field values of the last
processed event. -/
theorem C2_record_upsert (S : String) (hS : S ≠ "")
    (es : List (EventEnvelope × Int)) (hne : es ≠ [])
    (hall : ∀ e ∈ es, e.1.dataBody.orderSn = some S) (s : ManagerState)
    (hc : s.charge_order_sns.count S ≤ 1)
    (hd : s.discharge_order_sns.count S ≤ 1) :
    ((es.foldl (fun st e => process_charge_record e.1 e.2 st)
        s).charge_order_sns.count S = 1 ∧
     (∀ pe, es.getLast? = some pe →
       (es.foldl (fun st e => process_charge_record e.1 e.2 st)
         s).charge_records S = some (mkChargeRecord pe.1.dataBody S pe.2))) ∧
    ((es.foldl (fun st e => process_discharge_record e.1 e.2 st)
        s).discharge_order_sns.count S = 1 ∧
     (∀ pe, es.getLast? = some pe →
       (es.foldl (fun st e => process_discharge_record e.1 e.2 st)
         s).discharge_records S = some (mkDischargeRecord pe.1.dataBody S pe.2))) := by
  have h1 := foldl_process_charge S hS es s hall hc
  have h2 := foldl_process_discharge S hS es s hall hd
  exact ⟨⟨h1.1 hne, h1.2⟩, ⟨h2.1 hne, h2.2⟩⟩

theorem C2_record_upsert_witness :
    ((exEvents.foldl (fun st e => process_charge_record e.1 e.2 st)
        (initState "P" "D")).charge_order_sns.count "A" = 1 ∧
     (∀ pe, exEvents.getLast? = some pe →
       (exEvents.foldl (fun st e => process_charge_record e.1 e.2 st)
         (initState "P" "D")).charge_records "A" =
           some (mkChargeRecord pe.1.dataBody "A" pe.2))) ∧
    ((exEvents.foldl (fun st e => process_discharge_record e.1 e.2 st)
        (initState "P" "D")).discharge_order_sns.count "A" = 1 ∧
     (∀ pe, exEvents.getLast? = some pe →
       (exEvents.foldl (fun st e => process_discharge_record e.1 e.2 st)
         (initState "P" "D")).discharge_records "A" =
           some (mkDischargeRecord pe.1.dataBody "A" pe.2))) :=
  C2_record_upsert "A" (by decide) exEvents (by decide)
    (by decide) (initState "P" "D") (by decide) (by decide)

theorem process_charge_record_event_logs (p : EventEnvelope) (now : Int)
    (s : ManagerState) :
    (process_charge_record p now s).event_logs = s.event_logs := by
  unfold process_charge_record
  cases p.dataBody.orderSn with
  | none => rfl
  | some sn =>
    dsimp only
    by_cases h : sn = ""
    · rw [if_pos h]
    · rw [if_neg h]

theorem process_discharge_record_event_logs (p : EventEnvelope) (now : Int)
    (s : ManagerState) :
    (process_discharge_record p now s).event_logs = s.event_logs := by
  unfold process_discharge_record
  cases p.dataBody.orderSn with
  | none => rfl
  | some sn =>
    dsimp only
    by_cases h : sn = ""
    · rw [if_pos h]
    · rw [if_neg h]

theorem handle_event_message_event_logs (p : EventEnvelope) (now : Int)
    (s : ManagerState) :
    (handle_event_message p now s).1.event_logs =
      pushBounded s.event_logs (mkEventRecord p now) := by
  unfold handle_event_message
  dsimp only
  by_cases h1 : p.header.function = some "chargeRecord"
  · rw [if_pos h1, process_charge_record_event_logs]
    rfl
  · rw [if_neg h1]
    by_cases h2 : p.header.function = some "dischargeRecord"
    · rw [if_pos h2, process_discharge_record_event_logs]
      rfl
    · rw [if_neg h2]
      rfl

theorem pushBounded_length_le (l : List EventRecord) (x : EventRecord)
    (h : l.length ≤ 1000) : (pushBounded l x).length ≤ 1000 := by
  unfold pushBounded
  dsimp only
  split_ifs with hgt
  · simp only [List.length_drop, List.length_append, List.length_singleton]
    omega
  · simp only [List.length_append, List.length_singleton] at hgt ⊢
    omega

theorem foldl_pushBounded (l : List EventRecord) :
    ∀ acc : List EventRecord, acc.length ≤ 1000 →
      l.foldl pushBounded acc = (acc ++ l).drop (acc.length + l.length - 1000) := by
  induction l with
  | nil =>
    intro acc h
    simp [Nat.sub_eq_zero_of_le h]
  | cons x t ih =>
    intro acc h
    rw [List.foldl_cons]
    by_cases hgt : (acc ++ [x]).length > 1000
    · have hacc : acc.length = 1000 := by
        simp only [List.length_append, List.length_singleton] at hgt
        omega
      have hb : pushBounded acc x = (acc ++ [x]).drop 1 := by
        simp only [pushBounded]
        rw [if_pos hgt]
      rw [hb, ih _ (by
        simp only [List.length_drop, List.length_append, List.length_singleton]
        omega)]
      have hsplit : ((acc ++ [x]).drop 1) ++ t = ((acc ++ [x]) ++ t).drop 1 :=
        (List.drop_append_of_le_length (by simp)).symm
      rw [hsplit, List.drop_drop, List.append_assoc, List.singleton_append]
      exact congrArg (fun n => (acc ++ x :: t).drop n) (by
        simp only [List.length_drop, List.length_append, List.length_singleton,
          List.length_cons, List.length_nil, hacc]
        omega)
    · have hb : pushBounded acc x = acc ++ [x] := by
        simp only [pushBounded]
        rw [if_neg hgt]
      have hle : (acc ++ [x]).length ≤ 1000 := by omega
      rw [hb, ih _ hle]
      rw [List.append_assoc, List.singleton_append]
      exact congrArg (fun n => (acc ++ x :: t).drop n) (by
        simp only [List.length_append, List.length_singleton, List.length_cons,
          List.length_nil]
        omega)

theorem runEvents_event_logs (es : List (EventEnvelope × Int)) :
    ∀ s : ManagerState, (runEvents es s).event_logs =
      (es.map fun e => mkEventRecord e.1 e.2).foldl pushBounded s.event_logs := by
  induction es with
  | nil =>
    intro s
    simp [runEvents]
  | cons e t ih =>
    intro s
    have hstep : runEvents (e :: t) s = runEvents t (handle_event_message e.1 e.2 s).1 := by
      simp [runEvents]
    rw [hstep, ih, handle_event_message_event_logs]
    simp

/-- C4: the event ledger is a bounded FIFO of capacity 1000: running 1001
events from a fresh session leaves exactly the ledger records of the last
1000 events in receipt order (the oldest evicted), and every event-handling
step preserves the length bound. -/
theorem C4_bounded_fifo :
    (∀ (pc dc : String) (es : List (EventEnvelope × Int)), es.length = 1001 →
      (runEvents es (initState pc dc)).event_logs =
        (es.map fun e => mkEventRecord e.1 e.2).drop 1) ∧
    (∀ (p : EventEnvelope) (now : Int) (s : ManagerState),
      s.event_logs.length ≤ 1000 →
      (handle_event_message p now s).1.event_logs.length ≤ 1000) := by
  constructor
  · intro pc dc es hlen
    rw [runEvents_event_logs, foldl_pushBounded _ _ (by simp [initState])]
    simp [initState, hlen]
  · intro p now s h
    rw [handle_event_message_event_logs]
    exact pushBounded_length_le _ _ h

theorem C4_bounded_fifo_witness :
    (runEvents (List.replicate 1001 (exChargeEvent, 0)) (initState "P" "D")).event_logs =
      ((List.replicate 1001 (exChargeEvent, 0)).map fun e => mkEventRecord e.1 e.2).drop 1 ∧
    (handle_event_message exChargeEvent 0 (initState "P" "D")).1.event_logs.length ≤ 1000 :=
  ⟨C4_bounded_fifo.1 "P" "D" _ (by rw [List.length_replicate]),
   C4_bounded_fifo.2 exChargeEvent 0 (initState "P" "D") (by simp [initState])⟩

/-- C7: a rate-model set request with mismatched or out-of-range rate-list
lengths returns the sentinel −1 with nothing published and the state
unchanged (rejection happens before publish); a request with matching
lengths in [1,12], issued while connected, is not rejected by this check:
exactly one request envelope is published. -/
theorem C7_rate_model_validation (rate_model_id : String) (effect : Int)
    (effect_date : String) (rate_list rate_details_list : List RateItem)
    (function_id : String) (now : Int) (s : ManagerState) :
    (rate_list.length ≠ rate_details_list.length ∨
        rate_list.length < 1 ∨ 12 < rate_list.length →
      send_rate_model_set rate_model_id effect effect_date rate_list
        rate_details_list function_id now s = (-1, s, [])) ∧
    (s.connected = true → rate_list.length = rate_details_list.length →
      1 ≤ rate_list.length → rate_list.length ≤ 12 →
      ∃ env : RateEnvelope,
        (send_rate_model_set rate_model_id effect effect_date rate_list
          rate_details_list function_id now s).2.2 =
          [(get_topic s MessageType.REQUEST "publish", env)]) := by
  constructor
  · intro hbad
    unfold send_rate_model_set
    split_ifs with h1 h2
    · rfl
    · rfl
    · exfalso
      omega
  · intro hcon hlen h1 h12
    unfold send_rate_model_set
    rw [if_neg (by simp [hcon]), if_neg (by omega)]
    exact ⟨_, rfl⟩

theorem C7_rate_model_validation_witness :
    send_rate_model_set "RM" 1 "d" exRateList [] "rateModeSetReq" 0
      (initState "P" "D") = (-1, initState "P" "D", []) ∧
    ∃ env : RateEnvelope,
      (send_rate_model_set "RM" 1 "d" exRateList exRateDetails "rateModeSetReq"
        0 exConnState).2.2 =
        [(get_topic exConnState MessageType.REQUEST "publish", env)] :=
  ⟨(C7_rate_model_validation "RM" 1 "d" exRateList [] "rateModeSetReq" 0
      (initState "P" "D")).1 (Or.inl (by decide)),
   (C7_rate_model_validation "RM" 1 "d" exRateList exRateDetails
      "rateModeSetReq" 0 exConnState).2 rfl rfl (by decide) (by decide)⟩

theorem handle_response_message_none (r : RespEnvelope) (s : ManagerState)
    (k : Int) (h : s.pending_commands k = none) :
    (handle_response_message r s).pending_commands k = none := by
  unfold handle_response_message
  cases hr : r.header.index with
  | none => exact h
  | some i =>
    dsimp only
    cases hc : s.pending_commands i with
    | none => exact h
    | some cmd =>
      dsimp only
      by_cases hk : k = i
      · subst hk
        rw [h] at hc
        cases hc
      · rw [if_neg hk]
        exact h

/-- C10: a rate-model set call that passes validation publishes its request
with the pre-increment session message index in the header, returns that
index plus one to the caller, and creates no pending-command entry — and
since response handling never creates entries, no inbound response can ever
mark this command completed. -/
theorem C10_rate_model_index (rate_model_id : String) (effect : Int)
    (effect_date : String) (rate_list rate_details_list : List RateItem)
    (function_id : String) (now : Int) (s : ManagerState)
    (hcon : s.connected = true)
    (hlen : rate_list.length = rate_details_list.length)
    (h1 : 1 ≤ rate_list.length) (h12 : rate_list.length ≤ 12) :
    (∃ env : RateEnvelope,
      (send_rate_model_set rate_model_id effect effect_date rate_list
        rate_details_list function_id now s).2.2 =
        [(get_topic s MessageType.REQUEST "publish", env)] ∧
      env.index = s.message_index) ∧
    (send_rate_model_set rate_model_id effect effect_date rate_list
      rate_details_list function_id now s).1 = s.message_index + 1 ∧
    (send_rate_model_set rate_model_id effect effect_date rate_list
      rate_details_list function_id now s).2.1.pending_commands =
      s.pending_commands ∧
    (∀ (r : RespEnvelope) (k : Int),
      (send_rate_model_set rate_model_id effect effect_date rate_list
        rate_details_list function_id now s).2.1.pending_commands k = none →
      (handle_response_message r
        (send_rate_model_set rate_model_id effect effect_date rate_list
          rate_details_list function_id now s).2.1).pending_commands k = none) := by
  unfold send_rate_model_set
  rw [if_neg (by simp [hcon]), if_neg (by omega)]
  refine ⟨⟨_, rfl, rfl⟩, rfl, rfl, ?_⟩
  intro r k hk
  exact handle_response_message_none r _ k hk

theorem C10_rate_model_index_witness :
    (∃ env : RateEnvelope,
      (send_rate_model_set "RM" 1 "d" exRateList exRateDetails "rateModeSetReq"
        0 exConnState).2.2 =
        [(get_topic exConnState MessageType.REQUEST "publish", env)] ∧
      env.index = exConnState.message_index) ∧
    (send_rate_model_set "RM" 1 "d" exRateList exRateDetails "rateModeSetReq"
      0 exConnState).1 = exConnState.message_index + 1 ∧
    (send_rate_model_set "RM" 1 "d" exRateList exRateDetails "rateModeSetReq"
      0 exConnState).2.1.pending_commands = exConnState.pending_commands ∧
    (∀ (r : RespEnvelope) (k : Int),
      (send_rate_model_set "RM" 1 "d" exRateList exRateDetails "rateModeSetReq"
        0 exConnState).2.1.pending_commands k = none →
      (handle_response_message r
        (send_rate_model_set "RM" 1 "d" exRateList exRateDetails
          "rateModeSetReq" 0 exConnState).2.1).pending_commands k = none) :=
  C10_rate_model_index "RM" 1 "d" exRateList exRateDetails "rateModeSetReq" 0
    exConnState rfl rfl (by decide) (by decide)

theorem pySliceLast_of_pos (count : Int) (h : 1 ≤ count) (l : List α) :
    pySliceLast count l = l.drop (l.length - count.toNat) := by
  unfold pySliceLast
  dsimp only
  rw [if_neg (by omega)]
  exact congrArg (fun n => l.drop n) (by omega)

theorem slice_reverse_take (count : Int) (h : 1 ≤ count) (l : List α) :
    (pySliceLast count l).reverse = l.reverse.take count.toNat := by
  rw [pySliceLast_of_pos count h, List.reverse_drop]
  rw [List.take_eq_take]
  simp only [List.length_reverse]
  omega

theorem length_filterMap_of_isSome (f : α → Option β) :
    ∀ l : List α, (∀ a ∈ l, (f a).isSome = true) →
      (l.filterMap f).length = l.length := by
  intro l
  induction l with
  | nil => intro _; rfl
  | cons a t ih =>
    intro h
    have ha := h a (List.mem_cons_self _ _)
    rw [List.filterMap_cons]
    cases hfa : f a with
    | none =>
      rw [hfa] at ha
      simp at ha
    | some b =>
      simp [ih (fun x hx => h x (List.mem_cons_of_mem _ hx))]

/-- C9 (amended, count at least 1): the unfiltered charge (resp. discharge)
query returns the records of the most recently indexed `n` order
identifiers, most recent first — `min n (number stored)` records in all —
and the filtered query returns exactly the single match or nothing. -/
theorem C9_record_queries (n : Int) (hn : 1 ≤ n) (s : ManagerState)
    (hc : ∀ sn ∈ s.charge_order_sns, (s.charge_records sn).isSome = true)
    (hd : ∀ sn ∈ s.discharge_order_sns, (s.discharge_records sn).isSome = true) :
    (get_charge_records n none s =
        (s.charge_order_sns.reverse.take n.toNat).filterMap s.charge_records ∧
     (get_charge_records n none s).length =
        min n.toNat s.charge_order_sns.length ∧
     (∀ sn r, sn ≠ "" → s.charge_records sn = some r →
        get_charge_records n (some sn) s = [r]) ∧
     (∀ sn, sn ≠ "" → s.charge_records sn = none →
        get_charge_records n (some sn) s = [])) ∧
    (get_discharge_records n none s =
        (s.discharge_order_sns.reverse.take n.toNat).filterMap s.discharge_records ∧
     (get_discharge_records n none s).length =
        min n.toNat s.discharge_order_sns.length ∧
     (∀ sn r, sn ≠ "" → s.discharge_records sn = some r →
        get_discharge_records n (some sn) s = [r]) ∧
     (∀ sn, sn ≠ "" → s.discharge_records sn = none →
        get_discharge_records n (some sn) s = [])) := by
  have hce : get_charge_records n none s =
      (s.charge_order_sns.reverse.take n.toNat).filterMap s.charge_records := by
    unfold get_charge_records
    rw [if_neg (by simp [truthyOrderSn]), slice_reverse_take n hn]
  have hde : get_discharge_records n none s =
      (s.discharge_order_sns.reverse.take n.toNat).filterMap s.discharge_records := by
    unfold get_discharge_records
    rw [if_neg (by simp [truthyOrderSn]), slice_reverse_take n hn]
  refine ⟨⟨hce, ?_, ?_, ?_⟩, ⟨hde, ?_, ?_, ?_⟩⟩
  · rw [hce, length_filterMap_of_isSome _ _ ?_, List.length_take,
      List.length_reverse]
    intro a ha
    exact hc a (List.mem_reverse.mp (List.mem_of_mem_take ha))
  · intro sn r hsn hr
    unfold get_charge_records
    rw [if_pos (by simp [truthyOrderSn, hsn])]
    dsimp only
    rw [hr]
  · intro sn hsn hr
    unfold get_charge_records
    rw [if_pos (by simp [truthyOrderSn, hsn])]
    dsimp only
    rw [hr]
  · rw [hde, length_filterMap_of_isSome _ _ ?_, List.length_take,
      List.length_reverse]
    intro a ha
    exact hd a (List.mem_reverse.mp (List.mem_of_mem_take ha))
  · intro sn r hsn hr
    unfold get_discharge_records
    rw [if_pos (by simp [truthyOrderSn, hsn])]
    dsimp only
    rw [hr]
  · intro sn hsn hr
    unfold get_discharge_records
    rw [if_pos (by simp [truthyOrderSn, hsn])]
    dsimp only
    rw [hr]

/-- C9 counterexample: with count 0 the claim demands at most 0 records, but
the query returns the stored record — the Python slice `lst[-0:]` is the
whole list, so a zero (or negative) count returns everything. -/
theorem C9_counterexample_zero_count :
    get_charge_records 0 none exQueryState = [exStoredCharge] ∧
    (get_charge_records 0 none exQueryState).length = 1 := by
  constructor
  · decide
  · decide

theorem C9_record_queries_witness :
    (get_charge_records 10 none exQueryState =
        (exQueryState.charge_order_sns.reverse.take (10 : Int).toNat).filterMap
          exQueryState.charge_records ∧
     (get_charge_records 10 none exQueryState).length =
        min (10 : Int).toNat exQueryState.charge_order_sns.length ∧
     (∀ sn r, sn ≠ "" → exQueryState.charge_records sn = some r →
        get_charge_records 10 (some sn) exQueryState = [r]) ∧
     (∀ sn, sn ≠ "" → exQueryState.charge_records sn = none →
        get_charge_records 10 (some sn) exQueryState = [])) ∧
    (get_discharge_records 10 none exQueryState =
        (exQueryState.discharge_order_sns.reverse.take (10 : Int).toNat).filterMap
          exQueryState.discharge_records ∧
     (get_discharge_records 10 none exQueryState).length =
        min (10 : Int).toNat exQueryState.discharge_order_sns.length ∧
     (∀ sn r, sn ≠ "" → exQueryState.discharge_records sn = some r →
        get_discharge_records 10 (some sn) exQueryState = [r]) ∧
     (∀ sn, sn ≠ "" → exQueryState.discharge_records sn = none →
        get_discharge_records 10 (some sn) exQueryState = [])) :=
  C9_record_queries 10 (by decide) exQueryState
    (by
      intro a ha
      simp only [exQueryState, List.mem_singleton] at ha
      subst ha
      decide)
    (by
      intro a ha
      simp [exQueryState, initState] at ha)

end GridDut
